import Mathlib

/-!
# Verification of the edict ECS core (archetype storage, epoch hierarchy, query driver)

Shallow embedding of the hot parts of the repository:

* `src/src/archetype.rs` — per-column epoch bookkeeping (`despawn_unchecked`,
  `write_bundle`/`write_one`, `relocate_components`, `get_mut`), the entity
  vector's swap-remove, and the chunk arithmetic (`chunk_idx`, `chunks_count`,
  `first_of_chunk`).
* `src/src/world/query.rs` — the query drivers `get_one`, `for_one`,
  `try_fold_impl`, and the borrow acquire/release discipline (`QueryRelease`).
* `src/src/query/modified/copied.rs` — the `ModifiedFetchCopied` fetch
  (`skip_chunk` / `skip_item` / `visit_chunk` / `get_item`).

Machine integers (`usize`, `u64` epochs) are modelled as `Nat`: every quantity
involved is an index or a monotone counter, and the source guards growth with
`checked_mul`/asserts, so no wrap-around behaviour is in scope.
-/

namespace Edict

/-! ## EpochId, modelled from the spec

Modelled from the spec: the repository file defining `EpochId` (`src/epoch.rs`)
is not among the provided sources; only its callers are.  Spec §3:
`start()` is a sentinel strictly before every real epoch; `after(other)` is
strict ordering; `bump(world_epoch)` asserts the epoch is strictly before
`world_epoch` and sets it to `world_epoch`; `bump_again(world_epoch)` sets to
`world_epoch` if not already there; `update(other)` is `self = max(self, other)`.
An epoch is therefore a `Nat` with `start = 0`; `bump`/`bump_again` are
assignments (their assertions become preconditions of the operations that use
them) and `update` is `max`. -/

/-- Modelled from the spec: `EpochId::start()`, the "never observed" sentinel. -/
def epoch_start : Nat := 0

/-- Modelled from the spec: `EpochId::after`, the strict "comes after" test
used by every `Modified` skip test (`epoch.after(after_epoch)`). -/
def epoch_after (a b : Nat) : Bool := b < a

/-! ## Chunk arithmetic (`src/src/archetype.rs`, bottom of file) -/

/-- Source: `pub(crate) const CHUNK_LEN_USIZE: usize = 0x100;` -/
def CHUNK_LEN_USIZE : Nat := 0x100

/-- Source: `chunk_idx(idx) = idx >> 8`. -/
def chunk_idx (idx : Nat) : Nat := idx >>> 8

/-- Source: `chunks_count(entities) = entities + (CHUNK_LEN_USIZE - 1) / CHUNK_LEN_USIZE`,
with Rust operator precedence: the division binds tighter than the addition. -/
def chunks_count (entities : Nat) : Nat :=
  entities + (CHUNK_LEN_USIZE - 1) / CHUNK_LEN_USIZE

/-- The ceiling formula named by the spec as the correct chunk count
(spec-side definition, kept for comparison with `chunks_count`). -/
def chunks_count_ceil (entities : Nat) : Nat :=
  (entities + CHUNK_LEN_USIZE - 1) / CHUNK_LEN_USIZE

/-- Source: `first_of_chunk(idx)` is `Some(chunk_idx(idx))` when `idx % CHUNK_LEN == 0`, else `None`. -/
def first_of_chunk (idx : Nat) : Option Nat :=
  if idx % CHUNK_LEN_USIZE = 0 then some (chunk_idx idx) else none

/-! ## One component column (`ComponentData` in `src/src/archetype.rs`)

`ComponentData` holds the data pointer plus the three-level epoch stamps:
`epoch` (archetype level), `chunk_epochs[chunks]`, `entity_epochs[cap]`.
The epoch arrays are modelled as total functions `Nat → Nat` (the backing
allocation only grows, filled with `start()`; entries beyond the live range
are meaningless per spec §3) and the type-erased value array as a
`Nat → Nat` of row payloads.  `len` is the archetype's `entities.len()`,
which the source keeps equal to the live row count of every column. -/

structure Column where
  len : Nat
  epoch : Nat
  entity_epochs : Nat → Nat
  chunk_epochs : Nat → Nat
  values : Nat → Nat

/-- Pointwise array store, used for every `*_epochs[i] = e` write. -/
def updFn (f : Nat → Nat) (i v : Nat) : Nat → Nat :=
  fun j => if j = i then v else f j

/-- A freshly created column: `ArchetypeComponent::new` starts with
`epoch: EpochId::start()` and empty epoch arrays, and `grow` fills both
arrays with `EpochId::start()`; no rows are live. -/
def fresh_column : Column :=
  { len := 0, epoch := 0, entity_epochs := fun _ => 0,
    chunk_epochs := fun _ => 0, values := fun _ => 0 }

/-- Model of `Archetype::write_one` / the per-component body of `write_bundle`
(`src/src/archetype.rs` lines 744–806) for one column: stamp
`data.epoch.bump_again(epoch)`, `chunk_epoch.bump_again(epoch)`,
`entity_epoch.bump(epoch)`, then write the value at `entity_idx`.
In `spawn` the write lands at `entity_idx = len` and the subsequent
`entities.push` makes the row live, so the row count becomes
`max len (entity_idx + 1)`; in `set`/`set_bundle` `entity_idx < len`
and the count is unchanged. -/
def write_one_col (c : Column) (entity_idx ep v : Nat) : Column :=
  { len := max c.len (entity_idx + 1)
    epoch := ep
    chunk_epochs := updFn c.chunk_epochs (chunk_idx entity_idx) ep
    entity_epochs := updFn c.entity_epochs entity_idx ep
    values := updFn c.values entity_idx v }

/-- Preconditions of `write_one_col`, from the source's assertions:
the write slot is in bounds or the fresh slot (`entity_idx <= len`, spawn's
reserve guarantees capacity), `bump_again` requires the archetype and chunk
epochs to be at most `epoch`, and `bump` requires the entity epoch to be
strictly before `epoch`. -/
def write_pre (c : Column) (entity_idx ep : Nat) : Prop :=
  entity_idx ≤ c.len ∧ c.epoch ≤ ep ∧
    c.chunk_epochs (chunk_idx entity_idx) ≤ ep ∧
    c.entity_epochs entity_idx < ep

/-- The per-column body of `despawn_unchecked` (`src/src/archetype.rs`
lines 330–378): drop the value at `entity_idx`; if the row is not the last,
read the last row's entity epoch, `chunk_epoch.update(last_epoch)`,
`*entity_epoch = last_epoch`, and copy the last row's bytes into the slot.
The trailing `entities.swap_remove` makes the last row dead, so `len`
drops by one.  (The `cfg(debug_assertions)` reset of the dead slot's entity
epoch is omitted: entries at indices `≥ len` are meaningless.) -/
def despawn_unchecked_col (c : Column) (entity_idx : Nat) : Column :=
  let last_entity_idx := c.len - 1
  if entity_idx ≠ last_entity_idx then
    let last_epoch := c.entity_epochs last_entity_idx
    { len := c.len - 1
      epoch := c.epoch
      chunk_epochs := updFn c.chunk_epochs (chunk_idx entity_idx)
        (max (c.chunk_epochs (chunk_idx entity_idx)) last_epoch)
      entity_epochs := updFn c.entity_epochs entity_idx last_epoch
      values := updFn c.values entity_idx (c.values last_entity_idx) }
  else
    { c with len := c.len - 1 }

/-- Precondition of `despawn_unchecked_col`: the row is live
(`debug_assert!(entity_idx < self.entities.len())`). -/
def despawn_pre (c : Column) (entity_idx : Nat) : Prop :=
  entity_idx < c.len

/-- Model of `Archetype::get_mut` (`src/src/archetype.rs` lines 460–484): bump the
archetype epoch, the chunk epoch at `chunk_idx(idx)` and the entity epoch at
`idx` to `epoch`.  The value is handed out as `&mut T`; any mutation through
it is outside the column bookkeeping. -/
def get_mut_col (c : Column) (entity_idx ep : Nat) : Column :=
  { len := c.len
    epoch := ep
    chunk_epochs := updFn c.chunk_epochs (chunk_idx entity_idx) ep
    entity_epochs := updFn c.entity_epochs entity_idx ep
    values := c.values }

/-- Preconditions of `get_mut_col`: the row is live, and the world epoch was
advanced before the call ("`epoch` must be advanced in `World` before this
call", so `bump` sees `archetype_epoch < epoch`). -/
def get_mut_pre (c : Column) (entity_idx ep : Nat) : Prop :=
  entity_idx < c.len ∧ c.epoch < ep

/-- One source-column iteration of `relocate_components`
(`src/src/archetype.rs` lines 809–874), for a source column whose type the
destination archetype either has (`present_in_dst = true`, the
`if let Some(dst_type_idx)` branch: read `epoch = src.entity_epochs[src_idx]`,
`dst.epoch.update(epoch)`, `dst_chunk.update(epoch)`,
`*dst_entity_epoch = epoch`, copy the bytes) or lacks
(`present_in_dst = false`: the `missing` action drops or moves the value out;
the destination column does not exist, modelled as untouched).  Afterwards the
source row is back-filled from the last row exactly as in `despawn_unchecked`,
and the caller's `entities.swap_remove` / `entities.push` adjust the row
counts (source loses a row, destination row `dst_idx` becomes live). -/
def relocate_components_col (present_in_dst : Bool) (src dst : Column)
    (src_idx dst_idx : Nat) : Column × Column :=
  let e := src.entity_epochs src_idx
  let dst' :=
    if present_in_dst then
      { len := max dst.len (dst_idx + 1)
        epoch := max dst.epoch e
        chunk_epochs := updFn dst.chunk_epochs (chunk_idx dst_idx)
          (max (dst.chunk_epochs (chunk_idx dst_idx)) e)
        entity_epochs := updFn dst.entity_epochs dst_idx e
        values := updFn dst.values dst_idx (src.values src_idx) }
    else dst
  let last_entity_idx := src.len - 1
  let src' :=
    if src_idx ≠ last_entity_idx then
      { len := src.len - 1
        epoch := src.epoch
        chunk_epochs := updFn src.chunk_epochs (chunk_idx src_idx)
          (max (src.chunk_epochs (chunk_idx src_idx)) (src.entity_epochs last_entity_idx))
        entity_epochs := updFn src.entity_epochs src_idx (src.entity_epochs last_entity_idx)
        values := updFn src.values src_idx (src.values last_entity_idx) }
    else
      { src with len := src.len - 1 }
  (src', dst')

/-- Preconditions of `relocate_components_col`: the source row is live, the
destination slot is the freshly reserved one past the live rows
(`dst_entity_idx = dst.entities.len()`), and its entity epoch is still the
start sentinel (`debug_assert_eq!(*dst_entity_epoch, EpochId::start())`). -/
def relocate_pre (src dst : Column) (src_idx dst_idx : Nat) : Prop :=
  src_idx < src.len ∧ dst_idx = dst.len ∧ dst.entity_epochs dst_idx = 0

/-! ## The epoch-hierarchy invariant (spec §3 / §8 invariant 2) -/

/-- Invariant: `C.archetype_epoch ≥ C.chunk_epochs[k] ≥ C.entity_epochs[i]` for every
chunk `k` and live row `i` of chunk `k`. -/
def ColInv (c : Column) : Prop :=
  (∀ k, c.chunk_epochs k ≤ c.epoch) ∧
  (∀ i, i < c.len → c.entity_epochs i ≤ c.chunk_epochs (chunk_idx i))

/-! ## The entity vector side of `despawn_unchecked`

`EntityId` (`src/src/entity/id.rs`) is a transparent `u32`; entities are
modelled by their `id`/`idx()` value, the vector as a `List Nat`. -/

/-- Model of `Vec::swap_remove(index)`: copy the last element into slot `index`, then
shrink the length by one (when `index` is the last slot the copy is onto
itself). -/
def swap_remove (es : List Nat) (idx : Nat) : List Nat :=
  (es.set idx (es.getD (es.length - 1) 0)).dropLast

/-- The entity-vector part of `despawn_unchecked` (`src/src/archetype.rs`
lines 340, 372–377): `let last_entity_idx = len - 1`,
`entities.swap_remove(entity_idx)`, then return
`Some(entities[entity_idx].idx())` — the id now sitting in the vacated slot —
iff `entity_idx != last_entity_idx`. -/
def despawn_unchecked_entities (es : List Nat) (entity_idx : Nat) :
    List Nat × Option Nat :=
  let last_entity_idx := es.length - 1
  let es' := swap_remove es entity_idx
  if entity_idx ≠ last_entity_idx then (es', some (es'.getD entity_idx 0))
  else (es', none)

/-! ## `Modified<Copied<T>>` over one archetype
(`src/src/query/modified/copied.rs` + `try_fold_impl` in
`src/src/world/query.rs` lines 910–966)

`ModifiedFetchCopied`'s hooks:
`skip_chunk(c) = !chunk_epochs[c].after(after_epoch)`,
`skip_item(i) = !entity_epochs[i].after(after_epoch)`,
`visit_chunk` is a no-op, `get_item(i)` reads row `i`.  The query's
`skip_archetype` is `!data.epoch.after(after_epoch)` (or the component is
absent), and `try_fold_impl` skips empty archetypes outright. -/

structure MArch where
  len : Nat
  epoch : Nat
  entity_epochs : Nat → Nat
  chunk_epochs : Nat → Nat

/-- Model of `ModifiedFetchCopied::skip_chunk`. -/
def modified_skip_chunk (after_epoch : Nat) (a : MArch) (c : Nat) : Bool :=
  !epoch_after (a.chunk_epochs c) after_epoch

/-- Model of `ModifiedFetchCopied::skip_item`. -/
def modified_skip_item (after_epoch : Nat) (a : MArch) (i : Nat) : Bool :=
  !epoch_after (a.entity_epochs i) after_epoch

/-- Model of `Modified<Copied<T>>::skip_archetype` for an archetype holding the
component. -/
def modified_skip_archetype (after_epoch : Nat) (a : MArch) : Bool :=
  !epoch_after a.epoch after_epoch

/-- The row loop of `try_fold_impl` for one archetype, yielding the rows whose
items reach the closure.  The driver walks `indices = 0..len`; at each chunk
head (`first_of_chunk(idx)` is `Some`) a true `skip_chunk` executes
`indices.nth(CHUNK_LEN_USIZE - 1); continue;`.  `next()` already consumed
`idx`, and `Iterator::nth(n)` consumes `n + 1` further elements, so the loop
resumes at `idx + CHUNK_LEN_USIZE + 1`: the 256 rows `idx..idx+255` *and* row
`idx + 256`, the head of the following chunk, are all consumed.  A row whose
`skip_item` is false is yielded (`visit_chunk` is a no-op for this fetch). -/
def try_fold_rows (after_epoch : Nat) (a : MArch) (idx : Nat) : List Nat :=
  if _h : idx < a.len then
    if idx % CHUNK_LEN_USIZE = 0 ∧
        modified_skip_chunk after_epoch a (chunk_idx idx) = true then
      try_fold_rows after_epoch a (idx + (CHUNK_LEN_USIZE + 1))
    else if modified_skip_item after_epoch a idx then
      try_fold_rows after_epoch a (idx + 1)
    else
      idx :: try_fold_rows after_epoch a (idx + 1)
  else []
termination_by a.len - idx
decreasing_by
  all_goals simp [CHUNK_LEN_USIZE]
  all_goals omega

/-- One archetype's contribution to `try_fold_impl` for a `Modified` copied
query: empty archetypes and archetypes whose archetype epoch is not after the
baseline are skipped whole; otherwise the row loop runs from row 0. -/
def try_fold_arch (after_epoch : Nat) (a : MArch) : List Nat :=
  if a.len = 0 then []
  else if modified_skip_archetype after_epoch a then []
  else try_fold_rows after_epoch a 0

/-! ## `QueryRef::get_one` and the free function `for_one`
(`src/src/world/query.rs` lines 501–537 and 800–848)

The query and fetch are abstracted to the hooks `get_one` consults:
`skip_archetype` per archetype index, and the fetch's `skip_chunk` /
`skip_item` / `get_item` (items are modelled by `Nat` payloads; `visit_chunk`
is bookkeeping and shows up only in the recorded call trace).  The external
`EntitySet::get_location` is the `loc` input, the world epoch counter the
`epoch0` input (`EpochCounter::next()` advances it by one — modelled from the
spec, §6: "advances and returns the next epoch"), and the `QueryRef`'s borrow
state is the `borrowed0` flag plus the list of archetype indices whose
columns are currently borrowed. -/

inductive QueryOneError where
  | noSuchEntity
  | notSatisfied
deriving DecidableEq, Repr

/-- The fetch-protocol calls a driver makes, in order, with their results. -/
inductive FetchEv where
  | skipChunkE : Nat → Bool → FetchEv
  | visitChunkE : Nat → FetchEv
  | skipItemE : Nat → Bool → FetchEv
  | getItemE : Nat → FetchEv
deriving DecidableEq, Repr

structure GetOneOut where
  res : Except QueryOneError Nat
  epochAfter : Nat
  borrowedAfter : Bool
  borrowsAfter : List Nat
  trace : List FetchEv

/-- Model of `QueryRef::ensure_borrow` (lines 413–463): if not yet borrowed, walk every
archetype and acquire the query's column borrows on each archetype that
`skip_archetype` does not reject, then set the `borrowed` flag. -/
def ensure_borrow (borrowed0 : Bool) (borrows0 : List Nat) (nArch : Nat)
    (skipA : Nat → Bool) : Bool × List Nat :=
  if borrowed0 then (true, borrows0)
  else (true, (List.range nArch).filter (fun i => !skipA i))

/-- Model of `QueryRef::get_one` (lines 501–537): resolve the location
(`Err(NoSuchEntity)` if the directory has none), reject on `skip_archetype`
(`Err(NotSatisfied)`), then `ensure_borrow`, `epoch.next()`, build the fetch,
and test `skip_chunk(chunk_idx(idx))`, `visit_chunk(chunk_idx(idx))`,
`skip_item(idx)` — in this order, `visit_chunk` before `skip_item` — before
`get_item(idx)`. -/
def get_one (loc : Option (Nat × Nat)) (nArch : Nat) (skipA : Nat → Bool)
    (skipC skipI : Nat → Bool) (item : Nat → Nat)
    (epoch0 : Nat) (borrowed0 : Bool) (borrows0 : List Nat) : GetOneOut :=
  match loc with
  | none => ⟨.error .noSuchEntity, epoch0, borrowed0, borrows0, []⟩
  | some (a, idx) =>
    if skipA a then ⟨.error .notSatisfied, epoch0, borrowed0, borrows0, []⟩
    else
      let b := ensure_borrow borrowed0 borrows0 nArch skipA
      let epoch := epoch0 + 1
      if skipC (chunk_idx idx) then
        ⟨.error .notSatisfied, epoch, b.1, b.2, [.skipChunkE (chunk_idx idx) true]⟩
      else if skipI idx then
        ⟨.error .notSatisfied, epoch, b.1, b.2,
          [.skipChunkE (chunk_idx idx) false, .visitChunkE (chunk_idx idx),
            .skipItemE idx true]⟩
      else
        ⟨.ok (item idx), epoch, b.1, b.2,
          [.skipChunkE (chunk_idx idx) false, .visitChunkE (chunk_idx idx),
            .skipItemE idx false, .getItemE idx]⟩

/-- The free function `for_one` (lines 800–848), fetch-call order only: it
tests `skip_chunk`, then `skip_item`, and calls `visit_chunk` only after the
item passed `skip_item`, just before `get_item`.  (Borrow handling — acquire
on the one archetype, `QueryRelease` guard — does not interleave with these
calls and is omitted here.) -/
def for_one (loc : Option (Nat × Nat)) (skipA : Nat → Bool)
    (skipC skipI : Nat → Bool) (item : Nat → Nat) :
    Except QueryOneError Nat × List FetchEv :=
  match loc with
  | none => (.error .noSuchEntity, [])
  | some (a, idx) =>
    if skipA a then (.error .notSatisfied, [])
    else if skipC (chunk_idx idx) then
      (.error .notSatisfied, [.skipChunkE (chunk_idx idx) true])
    else if skipI idx then
      (.error .notSatisfied,
        [.skipChunkE (chunk_idx idx) false, .skipItemE idx true])
    else
      (.ok (item idx),
        [.skipChunkE (chunk_idx idx) false, .skipItemE idx false,
          .visitChunkE (chunk_idx idx), .getItemE idx])

/-! ## Borrow discipline of `try_fold_impl`
(`src/src/world/query.rs` lines 910–966 with `QueryRelease` lines 761–798)

For each archetype in order the driver: skips it if empty or rejected by
`skip_archetype`; otherwise acquires the query's column borrows, wraps the
query in the `QueryRelease` guard, folds the closure over the rows, and
releases — either through `guard.release()` on normal completion or through
the guard's `Drop` when `acc = f(acc, item)?` propagates an error (a panic
unwinds through the same `Drop`).  Each archetype is summarised by whether it
is empty, whether the query skips it, the rows handed to the closure, and
whether the closure exits early there. -/

structure ArchRun where
  empty : Bool
  skip : Bool
  items : List Nat
  errs : Bool

inductive BEv where
  | acq : Nat → BEv
  | rel : Nat → BEv
  | item : Nat → Nat → BEv
deriving DecidableEq, Repr

/-- The acquire/release/item event trace of `try_fold_impl` over the
archetype list (archetypes numbered from `i`). -/
def try_fold_trace : List ArchRun → Nat → List BEv
  | [], _ => []
  | a :: rest, i =>
    if a.empty || a.skip then try_fold_trace rest (i + 1)
    else if a.errs then
      BEv.acq i :: (a.items.map (BEv.item i) ++ [BEv.rel i])
    else
      BEv.acq i :: (a.items.map (BEv.item i) ++ BEv.rel i :: try_fold_trace rest (i + 1))

/-- Well-bracketed borrow traces: a concatenation of segments
`acq i, (items of archetype i), rel i` — every acquire is matched by the
release of the same archetype before any other acquire. -/
inductive Bracketed : List BEv → Prop
  | nil : Bracketed []
  | seg (i : Nat) (body rest : List BEv) :
      (∀ e ∈ body, ∃ j, e = BEv.item i j) → Bracketed rest →
      Bracketed (BEv.acq i :: (body ++ BEv.rel i :: rest))

/-- Signed borrow count of a trace: +1 per acquire, −1 per release. -/
def heldI : List BEv → Int
  | [] => 0
  | BEv.acq _ :: t => 1 + heldI t
  | BEv.rel _ :: t => -1 + heldI t
  | BEv.item _ _ :: t => heldI t

/-! ## C1: one `Modified` pass over an archetype -/

/-- A reachable 257-row archetype: all rows were spawned at epoch 1, then row
256 (the first row of chunk 1) was written at epoch 2.  The chunk-0 epoch is
1, the chunk-1 epoch and the archetype epoch are 2. -/
def c1_arch : MArch :=
  { len := 257, epoch := 2
    entity_epochs := fun i => if i = 256 then 2 else 1
    chunk_epochs := fun k => if k = 0 then 1 else 2 }

/-- C1: the claim fails on the code.  `c1_arch` satisfies the epoch-hierarchy
invariant, the archetype is not skipped, and row 256's entity epoch is after
the baseline `E0 = 1` — so the claim says one full `try_fold` pass must yield
row 256.  It yields nothing: the skip of chunk 0 executes
`indices.nth(CHUNK_LEN_USIZE - 1)` after `next()` already consumed the chunk
head, consuming 257 rows and swallowing row 256, the head of chunk 1. -/
theorem C1_modified_fold_drops_row :
    try_fold_arch 1 c1_arch = [] ∧
    modified_skip_archetype 1 c1_arch = false ∧
    (∀ k, c1_arch.chunk_epochs k ≤ c1_arch.epoch) ∧
    (∀ i, i < c1_arch.len → c1_arch.entity_epochs i ≤ c1_arch.chunk_epochs (chunk_idx i)) ∧
    256 < c1_arch.len ∧ epoch_after (c1_arch.entity_epochs 256) 1 = true := by
  refine ⟨?_, ?_, ?_, ?_, ?_, ?_⟩
  · rw [try_fold_arch]
    norm_num [c1_arch, modified_skip_archetype, epoch_after]
    rw [try_fold_rows]
    norm_num [modified_skip_chunk, chunk_idx, epoch_after, CHUNK_LEN_USIZE, c1_arch]
    rw [try_fold_rows]
    norm_num [c1_arch]
  · simp [modified_skip_archetype, c1_arch, epoch_after]
  · intro k
    by_cases hk : k = 0 <;> simp [c1_arch, hk]
  · intro i hi
    simp only [c1_arch] at hi ⊢
    by_cases h : i = 256
    · subst h; decide
    · have h1 : (if i = 256 then 2 else 1) = 1 := by simp [h]
      rw [h1]
      split <;> omega
  · simp [c1_arch]
  · simp [c1_arch, epoch_after]

/-- Sanity check of the fold model: in a 3-row archetype whose row 1 was
written at epoch 2 (the rest at epoch 1), a `Modified` pass with baseline 1
does yield exactly row 1 — the model is not skipping everything. -/
theorem try_fold_arch_yields_modified :
    try_fold_arch 1
      { len := 3, epoch := 2
        entity_epochs := fun i => if i = 1 then 2 else 1
        chunk_epochs := fun _ => 2 } = [1] := by
  rw [try_fold_arch]
  norm_num [modified_skip_archetype, epoch_after]
  repeat
    rw [try_fold_rows]
    norm_num [modified_skip_chunk, modified_skip_item, chunk_idx, epoch_after,
      CHUNK_LEN_USIZE]

/-! ## C2: the `chunks_count` formula -/

/-- C2: the claim fails on the code, in the opposite direction.  Because the
division binds tighter than the addition, `chunks_count entities` is
`entities + 0 = entities`, which is never strictly smaller than the ceiling
`(entities + 255) / 256` — for every count the implemented formula is at
least the ceiling (so it cannot under-allocate). -/
theorem C2_chunks_count_never_smaller :
    (∀ entities, chunks_count_ceil entities ≤ chunks_count entities) ∧
    chunks_count 2 = 2 ∧ chunks_count_ceil 2 = 1 := by
  refine ⟨?_, by decide, by decide⟩
  intro n
  unfold chunks_count_ceil chunks_count CHUNK_LEN_USIZE
  omega

/-- C2, amended: the implemented formula computes `entities + 0 = entities`.
It never yields a value smaller than the correct ceiling; instead it
over-allocates — strictly larger already at 2 entities. -/
theorem C2_chunks_count_overallocates :
    (∀ entities, chunks_count entities = entities) ∧
    chunks_count_ceil 2 < chunks_count 2 ∧
    (∀ entities, chunks_count_ceil entities ≤ chunks_count entities) := by
  refine ⟨?_, by decide, ?_⟩
  · intro n; unfold chunks_count CHUNK_LEN_USIZE; omega
  · intro n; unfold chunks_count_ceil chunks_count CHUNK_LEN_USIZE; omega

/-! ## C3: cross-archetype relocation preserves the row epoch -/

/-- C3: for a component type present in both archetypes, `relocate_components`
writes the source row's entity epoch — read before the source row is
back-filled — into the destination row's entity-epoch slot, and raises the
destination's chunk and archetype epochs to at least that value via
`update` (max). -/
theorem C3_relocate_preserves_entity_epoch :
    ∀ (src dst : Column) (src_idx dst_idx : Nat),
      (relocate_components_col true src dst src_idx dst_idx).2.entity_epochs dst_idx
          = src.entity_epochs src_idx ∧
      (relocate_components_col true src dst src_idx dst_idx).2.chunk_epochs (chunk_idx dst_idx)
          = max (dst.chunk_epochs (chunk_idx dst_idx)) (src.entity_epochs src_idx) ∧
      (relocate_components_col true src dst src_idx dst_idx).2.epoch
          = max dst.epoch (src.entity_epochs src_idx) ∧
      src.entity_epochs src_idx
          ≤ (relocate_components_col true src dst src_idx dst_idx).2.chunk_epochs (chunk_idx dst_idx) ∧
      src.entity_epochs src_idx
          ≤ (relocate_components_col true src dst src_idx dst_idx).2.epoch := by
  intro src dst src_idx dst_idx
  refine ⟨?_, ?_, ?_, ?_, ?_⟩ <;>
    simp [relocate_components_col, updFn]

/-! ## C4: the epoch stamps written by `despawn_unchecked` -/

/-- A reachable two-row column: row 0 written at epoch 5, row 1 at epoch 3
(row 1 spawned at 3, then row 0 overwritten at 5); chunk and archetype
epochs are 5.  It satisfies the epoch-hierarchy invariant. -/
def c4_col : Column :=
  { len := 2, epoch := 5
    entity_epochs := fun i => if i = 0 then 5 else 3
    chunk_epochs := fun _ => 5
    values := fun _ => 0 }

/-- C4 counterexample: despawning row 0 of `c4_col` (not the last row) sets
`entity_epochs[0]` to the last row's epoch 3 by plain assignment
(`*entity_epoch = last_epoch`), not to `max(5, 3) = 5` as the claim states
for the entity stamp. -/
theorem C4_entity_epoch_not_maxed :
    (despawn_unchecked_col c4_col 0).entity_epochs 0 = 3 ∧
    max (c4_col.entity_epochs 0) (c4_col.entity_epochs (c4_col.len - 1)) = 5 ∧
    (despawn_unchecked_col c4_col 0).entity_epochs 0
      ≠ max (c4_col.entity_epochs 0) (c4_col.entity_epochs (c4_col.len - 1)) ∧
    ColInv c4_col := by
  refine ⟨?_, by decide, ?_, ?_, ?_⟩
  · simp [despawn_unchecked_col, c4_col, updFn]
  · simp [despawn_unchecked_col, c4_col, updFn]
  · intro k; simp [c4_col]
  · intro i _; simp [c4_col]; split <;> omega

/-- C4, amended: despawning a non-last row sets the row's entity epoch to the
last row's entity epoch by plain assignment (the moved datum keeps its own
observation epoch, which may be lower than the overwritten one), while the
chunk epoch at `row/256` is raised to the max of its previous value and the
last row's entity epoch via `update`. -/
theorem C4_despawn_epoch_stamps :
    ∀ (c : Column) (row : Nat), row + 1 < c.len →
      (despawn_unchecked_col c row).entity_epochs row = c.entity_epochs (c.len - 1) ∧
      (despawn_unchecked_col c row).chunk_epochs (chunk_idx row)
        = max (c.chunk_epochs (chunk_idx row)) (c.entity_epochs (c.len - 1)) := by
  intro c row h
  have hne : row ≠ c.len - 1 := by omega
  constructor <;> simp [despawn_unchecked_col, hne, updFn]

/-- Witness for `C4_despawn_epoch_stamps` at `c4_col`, row 0. -/
theorem C4_despawn_epoch_stamps_witness :
    (despawn_unchecked_col c4_col 0).entity_epochs 0 = c4_col.entity_epochs (c4_col.len - 1) ∧
    (despawn_unchecked_col c4_col 0).chunk_epochs (chunk_idx 0)
      = max (c4_col.chunk_epochs (chunk_idx 0)) (c4_col.entity_epochs (c4_col.len - 1)) :=
  C4_despawn_epoch_stamps c4_col 0 (by norm_num [c4_col])

/-! ## C5: preservation of the epoch-hierarchy invariant -/

theorem colInv_fresh : ColInv fresh_column := by
  constructor
  · intro k; simp [fresh_column]
  · intro i hi; simp [fresh_column] at hi

theorem colInv_write (c : Column) (entity_idx ep v : Nat)
    (hp : write_pre c entity_idx ep) (hinv : ColInv c) :
    ColInv (write_one_col c entity_idx ep v) := by
  obtain ⟨hlen, hep, hch, _⟩ := hp
  obtain ⟨h1, h2⟩ := hinv
  constructor
  · intro k
    simp only [write_one_col, updFn]
    split_ifs with h
    · exact le_refl ep
    · exact le_trans (h1 k) hep
  · intro i hi
    simp only [write_one_col, updFn] at hi ⊢
    split_ifs with hie hce hce
    · exact le_refl ep
    · exact absurd (hie ▸ rfl) hce
    · have hil : i < c.len := by omega
      have := h2 i hil
      rw [hce] at this
      exact le_trans this hch
    · have hil : i < c.len := by omega
      exact h2 i hil

theorem colInv_despawn (c : Column) (entity_idx : Nat)
    (hp : despawn_pre c entity_idx) (hinv : ColInv c) :
    ColInv (despawn_unchecked_col c entity_idx) := by
  obtain ⟨h1, h2⟩ := hinv
  unfold despawn_pre at hp
  simp only [despawn_unchecked_col]
  split_ifs with hne
  · have hlast : c.len - 1 < c.len := by omega
    have hle : c.entity_epochs (c.len - 1) ≤ c.epoch :=
      le_trans (h2 _ hlast) (h1 _)
    constructor
    · intro k
      simp only [updFn]
      split_ifs with h
      · exact max_le (h1 _) hle
      · exact h1 k
    · intro i hi
      simp only [updFn] at hi ⊢
      split_ifs with hie hce hce
      · exact le_max_right _ _
      · exact absurd (hie ▸ rfl) hce
      · have := h2 i (by omega)
        rw [hce] at this
        exact le_trans this (le_max_left _ _)
      · exact h2 i (by omega)
  · constructor
    · intro k; exact h1 k
    · intro i hi
      replace hi : i < c.len - 1 := hi
      exact h2 i (by omega)

theorem colInv_get_mut (c : Column) (entity_idx ep : Nat)
    (hp : get_mut_pre c entity_idx ep) (hinv : ColInv c) :
    ColInv (get_mut_col c entity_idx ep) := by
  obtain ⟨_, hep⟩ := hp
  obtain ⟨h1, h2⟩ := hinv
  constructor
  · intro k
    simp only [get_mut_col, updFn]
    split_ifs with h
    · exact le_refl ep
    · exact le_trans (h1 k) (le_of_lt hep)
  · intro i hi
    simp only [get_mut_col, updFn] at hi ⊢
    split_ifs with hie hce hce
    · exact le_refl ep
    · exact absurd (hie ▸ rfl) hce
    · exact le_trans (le_trans (h2 i hi) (h1 _)) (le_of_lt hep)
    · exact h2 i hi

theorem colInv_relocate (present : Bool) (src dst : Column) (src_idx dst_idx : Nat)
    (hp : relocate_pre src dst src_idx dst_idx)
    (hs : ColInv src) (hd : ColInv dst) :
    ColInv (relocate_components_col present src dst src_idx dst_idx).1 ∧
    ColInv (relocate_components_col present src dst src_idx dst_idx).2 := by
  obtain ⟨hsi, hdi, _⟩ := hp
  obtain ⟨hs1, hs2⟩ := hs
  obtain ⟨hd1, hd2⟩ := hd
  constructor
  · -- source column: back-fill from the last row, as in despawn
    simp only [relocate_components_col]
    split_ifs with hne
    · have hlast : src.len - 1 < src.len := by omega
      have hle : src.entity_epochs (src.len - 1) ≤ src.epoch :=
        le_trans (hs2 _ hlast) (hs1 _)
      constructor
      · intro k
        simp only [updFn]
        split_ifs with h
        · exact max_le (hs1 _) hle
        · exact hs1 k
      · intro i hi
        simp only [updFn] at hi ⊢
        split_ifs with hie hce hce
        · exact le_max_right _ _
        · exact absurd (hie ▸ rfl) hce
        · have := hs2 i (by omega)
          rw [hce] at this
          exact le_trans this (le_max_left _ _)
        · exact hs2 i (by omega)
    · constructor
      · intro k; exact hs1 k
      · intro i hi
        replace hi : i < src.len - 1 := hi
        exact hs2 i (by omega)
  · -- destination column: stamps raised via update, fresh slot assigned
    simp only [relocate_components_col]
    cases present with
    | false =>
      simp only [Bool.false_eq_true, if_false]
      exact ⟨hd1, hd2⟩
    | true =>
      simp only [if_true]
      constructor
      · intro k
        simp only [updFn]
        split_ifs with h
        · exact max_le (le_trans (hd1 _) (le_max_left _ _)) (le_max_right _ _)
        · exact le_trans (hd1 k) (le_max_left _ _)
      · intro i hi
        simp only [updFn] at hi ⊢
        split_ifs with hie hce hce
        · exact le_max_right _ _
        · exact absurd (hie ▸ rfl) hce
        · have hil : i < dst.len := by omega
          have := hd2 i hil
          rw [hce] at this
          exact le_trans this (le_max_left _ _)
        · exact hd2 i (by omega)

/-- C5: the epoch-hierarchy invariant — archetype epoch at least every chunk
epoch, chunk epoch at least every live entity epoch of its chunk — holds in a
fresh column and is preserved by `write_bundle`/`write_one` (spawn and set,
under `bump`/`bump_again`'s preconditions), `despawn_unchecked`,
`relocate_components` (both the source and the destination column, for a
component present or absent in the destination), and `get_mut` (under its
"epoch was advanced" precondition). -/
theorem C5_epoch_hierarchy_invariant :
    ColInv fresh_column ∧
    (∀ (c : Column) (entity_idx ep v : Nat), write_pre c entity_idx ep →
      ColInv c → ColInv (write_one_col c entity_idx ep v)) ∧
    (∀ (c : Column) (entity_idx : Nat), despawn_pre c entity_idx →
      ColInv c → ColInv (despawn_unchecked_col c entity_idx)) ∧
    (∀ (c : Column) (entity_idx ep : Nat), get_mut_pre c entity_idx ep →
      ColInv c → ColInv (get_mut_col c entity_idx ep)) ∧
    (∀ (present : Bool) (src dst : Column) (src_idx dst_idx : Nat),
      relocate_pre src dst src_idx dst_idx → ColInv src → ColInv dst →
      ColInv (relocate_components_col present src dst src_idx dst_idx).1 ∧
      ColInv (relocate_components_col present src dst src_idx dst_idx).2) :=
  ⟨colInv_fresh,
   fun c i ep v hp hinv => colInv_write c i ep v hp hinv,
   fun c i hp hinv => colInv_despawn c i hp hinv,
   fun c i ep hp hinv => colInv_get_mut c i ep hp hinv,
   fun p src dst si di hp hs hd => colInv_relocate p src dst si di hp hs hd⟩

/-- Witness for `C5_epoch_hierarchy_invariant`: a one-row column written at
epoch 1, mutated through `get_mut` at epoch 2; the invariant still holds. -/
theorem C5_epoch_hierarchy_invariant_witness :
    ColInv (get_mut_col (write_one_col fresh_column 0 1 7) 0 2) :=
  C5_epoch_hierarchy_invariant.2.2.2.1 (write_one_col fresh_column 0 1 7) 0 2
    ⟨by simp [write_one_col, fresh_column], by simp [write_one_col]⟩
    (C5_epoch_hierarchy_invariant.2.1 fresh_column 0 1 7
      ⟨by simp [fresh_column], by simp [fresh_column],
       by simp [fresh_column], by simp [fresh_column]⟩
      C5_epoch_hierarchy_invariant.1)

/-! ## C6: when `visit_chunk` is called -/

/-- C6: the claim fails on `get_one`.  With an entity at archetype 0, row 0,
whose chunk passes `skip_chunk` but whose row is rejected by `skip_item`,
`get_one` calls `visit_chunk` (between `skip_chunk` and `skip_item`) even
though every item it examines is skipped and the result is
`Err(NotSatisfied)`.  `for_one` on the same input obeys the contract: it
tests `skip_item` first and never calls `visit_chunk`. -/
theorem C6_get_one_visits_skipped_chunk :
    (get_one (some (0, 0)) 1 (fun _ => false) (fun _ => false) (fun _ => true)
        (fun i => i) 0 false []).trace
      = [.skipChunkE 0 false, .visitChunkE 0, .skipItemE 0 true] ∧
    (get_one (some (0, 0)) 1 (fun _ => false) (fun _ => false) (fun _ => true)
        (fun i => i) 0 false []).res = .error .notSatisfied ∧
    (for_one (some (0, 0)) (fun _ => false) (fun _ => false) (fun _ => true)
        (fun i => i)).2 = [.skipChunkE 0 false, .skipItemE 0 true] ∧
    (∀ e ∈ (for_one (some (0, 0)) (fun _ => false) (fun _ => false) (fun _ => true)
        (fun i => i)).2, ∀ c, e ≠ .visitChunkE c) := by
  refine ⟨?_, ?_, ?_, ?_⟩
  · simp [get_one, chunk_idx]
  · simp [get_one, chunk_idx]
  · simp [for_one, chunk_idx]
  · intro e he c
    simp [for_one, chunk_idx] at he
    rcases he with h | h <;> simp [h]

/-! ## C7: the error results of `get_one` -/

/-- C7: `get_one` returns `Err(NoSuchEntity)` exactly when the external
directory has no location for the entity; given a location, it returns
`Err(NotSatisfied)` exactly when the archetype, the chunk, or the row is
filtered out, and otherwise `Ok` with the fetched item. -/
theorem C7_get_one_result :
    ∀ (loc : Option (Nat × Nat)) (nArch : Nat) (skipA skipC skipI : Nat → Bool)
      (item : Nat → Nat) (epoch0 : Nat) (borrowed0 : Bool) (borrows0 : List Nat),
      ((get_one loc nArch skipA skipC skipI item epoch0 borrowed0 borrows0).res
          = .error .noSuchEntity ↔ loc = none) ∧
      (∀ a idx, loc = some (a, idx) →
        ((get_one loc nArch skipA skipC skipI item epoch0 borrowed0 borrows0).res
            = .error .notSatisfied
          ↔ (skipA a = true ∨ skipC (chunk_idx idx) = true ∨ skipI idx = true)) ∧
        (skipA a = false → skipC (chunk_idx idx) = false → skipI idx = false →
          (get_one loc nArch skipA skipC skipI item epoch0 borrowed0 borrows0).res
            = .ok (item idx))) := by
  intro loc nArch skipA skipC skipI item epoch0 borrowed0 borrows0
  constructor
  · cases loc with
    | none => simp [get_one]
    | some p =>
      obtain ⟨a, idx⟩ := p
      simp only [get_one]
      split_ifs <;> simp
  · intro a idx hloc
    subst hloc
    constructor
    · simp only [get_one]
      split_ifs with h1 h2 h3 <;> simp_all
    · intro ha hc hi
      simp [get_one, ha, hc, hi]

/-- Witness for `C7_get_one_result`: an entity at archetype 0, row 3, with
nothing filtered out, yields `Ok(item 3)`. -/
theorem C7_get_one_result_witness :
    (get_one (some (0, 3)) 1 (fun _ => false) (fun _ => false) (fun _ => false)
        (fun i => i + 10) 0 false []).res = .ok 13 :=
  ((C7_get_one_result (some (0, 3)) 1 (fun _ => false) (fun _ => false)
      (fun _ => false) (fun i => i + 10) 0 false []).2 0 3 rfl).2 rfl rfl rfl

/-! ## C10: `get_one` is not atomic on failure -/

/-- C10: `get_one` leaves the epoch counter and the borrow state untouched on
the `NoSuchEntity` and `skip_archetype` paths; on every other path — in
particular when it then fails with `Err(NotSatisfied)` from `skip_chunk` or
`skip_item` — it has already advanced the epoch counter by one and acquired
(and kept) the borrows on every non-skipped archetype. -/
theorem C10_get_one_side_effects :
    ∀ (loc : Option (Nat × Nat)) (nArch : Nat) (skipA skipC skipI : Nat → Bool)
      (item : Nat → Nat) (epoch0 : Nat) (borrowed0 : Bool) (borrows0 : List Nat),
      (loc = none →
        (get_one loc nArch skipA skipC skipI item epoch0 borrowed0 borrows0).epochAfter = epoch0 ∧
        (get_one loc nArch skipA skipC skipI item epoch0 borrowed0 borrows0).borrowedAfter = borrowed0 ∧
        (get_one loc nArch skipA skipC skipI item epoch0 borrowed0 borrows0).borrowsAfter = borrows0) ∧
      (∀ a idx, loc = some (a, idx) → skipA a = true →
        (get_one loc nArch skipA skipC skipI item epoch0 borrowed0 borrows0).epochAfter = epoch0 ∧
        (get_one loc nArch skipA skipC skipI item epoch0 borrowed0 borrows0).borrowedAfter = borrowed0 ∧
        (get_one loc nArch skipA skipC skipI item epoch0 borrowed0 borrows0).borrowsAfter = borrows0) ∧
      (∀ a idx, loc = some (a, idx) → skipA a = false →
        (get_one loc nArch skipA skipC skipI item epoch0 borrowed0 borrows0).epochAfter = epoch0 + 1 ∧
        (get_one loc nArch skipA skipC skipI item epoch0 borrowed0 borrows0).borrowedAfter = true ∧
        (borrowed0 = false →
          (get_one loc nArch skipA skipC skipI item epoch0 borrowed0 borrows0).borrowsAfter
            = (List.range nArch).filter (fun i => !skipA i)) ∧
        (borrowed0 = true →
          (get_one loc nArch skipA skipC skipI item epoch0 borrowed0 borrows0).borrowsAfter
            = borrows0)) := by
  intro loc nArch skipA skipC skipI item epoch0 borrowed0 borrows0
  refine ⟨?_, ?_, ?_⟩
  · intro h; subst h; simp [get_one]
  · intro a idx hloc ha
    subst hloc
    simp [get_one, ha]
  · intro a idx hloc ha
    subst hloc
    refine ⟨?_, ?_, ?_, ?_⟩ <;>
      · simp only [get_one, ha, if_false, Bool.false_eq_true, ensure_borrow]
        split_ifs <;> simp_all

/-! ## C8: despawn's swap-remove on the entity vector -/

theorem swap_remove_getD (es : List Nat) (idx j : Nat)
    (hidx : idx < es.length) (hj : j < es.length - 1) :
    (swap_remove es idx).getD j 0 =
      if j = idx then es.getD (es.length - 1) 0 else es.getD j 0 := by
  unfold swap_remove
  rw [List.getD_eq_getElem?_getD, List.dropLast_eq_take, List.length_set,
    List.getElem?_take, if_pos hj, List.getElem?_set]
  by_cases h : j = idx
  · simp [h, hidx]
  · have h2 : ¬ idx = j := fun hh => h hh.symm
    simp [h, h2, List.getD_eq_getElem?_getD]

/-- C8: for every archetype with `n ≥ 1` entities and row `idx < n`, despawn
removes the row by swap-remove — afterwards the entity vector is the old one
with its last element moved into slot `idx` and its length reduced by one —
and returns `Some` of the id that previously occupied the last row (and now
occupies row `idx`) exactly when `idx ≠ n - 1`, else `None`. -/
theorem C8_despawn_swap_remove :
    ∀ (es : List Nat) (entity_idx : Nat), entity_idx < es.length →
      (despawn_unchecked_entities es entity_idx).1.length = es.length - 1 ∧
      (∀ j, j < es.length - 1 →
        (despawn_unchecked_entities es entity_idx).1.getD j 0 =
          if j = entity_idx then es.getD (es.length - 1) 0 else es.getD j 0) ∧
      (despawn_unchecked_entities es entity_idx).2 =
        (if entity_idx = es.length - 1 then none
          else some (es.getD (es.length - 1) 0)) := by
  intro es entity_idx hidx
  have hfst : (despawn_unchecked_entities es entity_idx).1 = swap_remove es entity_idx := by
    simp only [despawn_unchecked_entities]
    split_ifs <;> rfl
  refine ⟨?_, ?_, ?_⟩
  · rw [hfst]
    simp [swap_remove, List.length_dropLast, List.length_set]
  · intro j hj
    rw [hfst]
    exact swap_remove_getD es entity_idx j hidx hj
  · simp only [despawn_unchecked_entities, ne_eq, ite_not]
    split_ifs with h
    · rfl
    · have hlt : entity_idx < es.length - 1 := by omega
      rw [swap_remove_getD es entity_idx entity_idx hidx hlt, if_pos rfl]

/-- Witness for `C8_despawn_swap_remove`: despawning row 0 of `[10, 20, 30]`
leaves `[30, 20]` and returns `Some 30`. -/
theorem C8_despawn_swap_remove_witness :
    (despawn_unchecked_entities [10, 20, 30] 0).1.length = [10, 20, 30].length - 1 ∧
    (∀ j, j < [10, 20, 30].length - 1 →
      (despawn_unchecked_entities [10, 20, 30] 0).1.getD j 0 =
        if j = 0 then [10, 20, 30].getD ([10, 20, 30].length - 1) 0
        else [10, 20, 30].getD j 0) ∧
    (despawn_unchecked_entities [10, 20, 30] 0).2 =
      (if 0 = [10, 20, 30].length - 1 then none
        else some ([10, 20, 30].getD ([10, 20, 30].length - 1) 0)) :=
  C8_despawn_swap_remove [10, 20, 30] 0 (by norm_num)

/-! ## C9: the borrow discipline of `try_fold_impl` -/

theorem heldI_append (a b : List BEv) : heldI (a ++ b) = heldI a + heldI b := by
  induction a with
  | nil => simp [heldI]
  | cons e t ih => cases e <;> simp [heldI, ih] <;> ring

theorem heldI_items (s : List BEv) (h : ∀ e ∈ s, ∃ i j, e = BEv.item i j) :
    heldI s = 0 := by
  induction s with
  | nil => rfl
  | cons e t ih =>
    obtain ⟨i, j, rfl⟩ := h e (List.mem_cons_self e t)
    simp only [heldI]
    exact ih fun e he => h e (List.mem_cons_of_mem _ he)

theorem bracketed_try_fold (runs : List ArchRun) (i : Nat) :
    Bracketed (try_fold_trace runs i) := by
  induction runs generalizing i with
  | nil => exact Bracketed.nil
  | cons a rest ih =>
    simp only [try_fold_trace]
    split_ifs with h1 h2
    · exact ih (i + 1)
    · exact Bracketed.seg i _ []
        (fun e he => by
          obtain ⟨j, _, rfl⟩ := List.mem_map.mp he
          exact ⟨j, rfl⟩)
        Bracketed.nil
    · exact Bracketed.seg i _ _
        (fun e he => by
          obtain ⟨j, _, rfl⟩ := List.mem_map.mp he
          exact ⟨j, rfl⟩)
        (ih (i + 1))

theorem held_of_bracketed (t : List BEv) (hb : Bracketed t) :
    ∀ k, 0 ≤ heldI (t.take k) ∧ heldI (t.take k) ≤ 1 := by
  induction hb with
  | nil => intro k; simp [heldI]
  | seg i body rest hbody _hrest ih =>
    intro k
    cases k with
    | zero => simp [heldI]
    | succ k' =>
      simp only [List.take_succ_cons, heldI]
      rw [List.take_append_eq_append_take, heldI_append]
      have hb0 : heldI (body.take k') = 0 :=
        heldI_items _ fun e he => by
          obtain ⟨j, hj⟩ := hbody e (List.mem_of_mem_take he)
          exact ⟨i, j, hj⟩
      rw [hb0]
      cases hk : k' - body.length with
      | zero => simp [heldI]
      | succ m =>
        simp only [hk, List.take_succ_cons, heldI]
        have := ih m
        omega

/-- C9: during a `try_fold`/`for_each` pass that starts without pre-acquired
borrows, the acquire/release trace is a sequence of disjoint
`acquire i … release i` brackets — each archetype's borrows are taken just
before its rows are fetched and fully released before the next archetype's
are taken, including when the closure exits early with an error (the
`QueryRelease` guard's drop) — so at most one archetype's borrows are held
at any prefix of the execution. -/
theorem C9_try_fold_borrow_discipline :
    ∀ (runs : List ArchRun) (i : Nat),
      Bracketed (try_fold_trace runs i) ∧
      ∀ k, 0 ≤ heldI ((try_fold_trace runs i).take k) ∧
        heldI ((try_fold_trace runs i).take k) ≤ 1 :=
  fun runs i =>
    ⟨bracketed_try_fold runs i,
     held_of_bracketed _ (bracketed_try_fold runs i)⟩

/-- Witness for `C10_get_one_side_effects`: an entity whose row is rejected by
`skip_item` still leaves the epoch advanced and the non-skipped archetype's
borrows held. -/
theorem C10_get_one_side_effects_witness :
    (get_one (some (0, 0)) 1 (fun _ => false) (fun _ => false) (fun _ => true)
        (fun i => i) 5 false []).epochAfter = 5 + 1 ∧
    (get_one (some (0, 0)) 1 (fun _ => false) (fun _ => false) (fun _ => true)
        (fun i => i) 5 false []).borrowedAfter = true ∧
    (false = false →
      (get_one (some (0, 0)) 1 (fun _ => false) (fun _ => false) (fun _ => true)
          (fun i => i) 5 false []).borrowsAfter
        = (List.range 1).filter (fun i => !(fun _ => false) i)) ∧
    (false = true →
      (get_one (some (0, 0)) 1 (fun _ => false) (fun _ => false) (fun _ => true)
          (fun i => i) 5 false []).borrowsAfter = []) :=
  (C10_get_one_side_effects (some (0, 0)) 1 (fun _ => false) (fun _ => false)
      (fun _ => true) (fun i => i) 5 false []).2.2 0 0 rfl rfl

end Edict
